import Mathlib

set_option linter.unusedVariables false

/-!
Shallow embedding of `src/contracts/GeometricCardFHE.sol` (contract
`GeometricCardFHE`) and proofs about its record lifecycle, the
asynchronous decryption-correlation protocol, and the per-category
encrypted counters.

Modelling conventions:
* `euint32` ciphertext handles become `Euint32 := Option Nat`: `some v`
  is an initialized handle whose underlying value is `v < 2^32`; `none`
  is the uninitialized (zero) handle that Solidity mappings return for
  absent keys.  `FHE.isInitialized` is `Option.isSome`, `FHE.asEuint32`
  wraps a constant, `FHE.add` adds the underlying values modulo `2^32`.
* `bytes` cleartext payloads become the symbolic type `CleartextBytes`;
  `abi.decode(cleartexts, (string[]))` succeeds exactly on `strList`
  payloads and `abi.decode(cleartexts, (uint32))` exactly on `u32`
  payloads; decoding a payload of the wrong shape (or indexing a decoded
  array out of bounds) reverts, modelled as the `Err.DecodeFailure`
  outcome.
* `FHE.checkSignatures(requestId, cleartexts, proof)` is an external
  verification primitive; it is a parameter `validSig : SigCheck` of the
  callback handlers, and its revert is `Err.ProofVerificationFailed`.
* `keccak256(abi.encodePacked(category))` cast through `bytes32ToUint`
  is a parameter `kc : HashFn`.
* Solidity mappings become total functions with the zero-value default
  baked into `initState`; a reverting function returns `Except.error`
  and a reverted transaction leaves the state unchanged (`applyOp`).
* Every public function takes an explicit `sender : Nat` for the
  implicit `msg.sender` of the calling context; the contract body never
  reads it and the `onlyParticipant` modifier's body is just `_;`.
* `FHE.requestDecryption` returns an oracle-chosen request id; the model
  passes that id in as the environment-chosen parameter `reqId`.
-/

abbrev Euint32 := Option Nat

inductive CleartextBytes where
  | strList (l : List String)
  | u32 (n : Nat)
  | raw (tag : Nat)
deriving DecidableEq, Repr

abbrev SigCheck := Nat → CleartextBytes → Nat → Bool

abbrev HashFn := String → Nat

namespace FHE

def isInitialized (x : Euint32) : Bool := x.isSome

def asEuint32 (n : Nat) : Euint32 := some (n % 2 ^ 32)

def add (a b : Euint32) : Euint32 := some ((a.getD 0 + b.getD 0) % 2 ^ 32)

end FHE

/-- `abi.decode(cleartexts, (string[]))`: succeeds only on a string-array
payload. -/
def decodeStringList : CleartextBytes → Option (List String)
  | .strList l => some l
  | _ => none

/-- `abi.decode(cleartexts, (uint32))`: succeeds only on a `uint32`
payload. -/
def decodeUint32 : CleartextBytes → Option Nat
  | .u32 n => some (n % 2 ^ 32)
  | _ => none

/-- struct EncryptedGeometry (id, encryptedShape2D, encryptedShape3D,
timestamp). -/
structure EncryptedGeometry where
  id : Nat
  encryptedShape2D : Euint32
  encryptedShape3D : Euint32
  timestamp : Nat
deriving DecidableEq, Repr

/-- struct DecryptedGeometry (shape2D, shape3D, isDecrypted). -/
structure DecryptedGeometry where
  shape2D : String
  shape3D : String
  isDecrypted : Bool
deriving DecidableEq, Repr

/-- The events declared by the contract. -/
inductive Event where
  | GeometrySubmitted (id : Nat) (timestamp : Nat)
  | DecryptionRequested (id : Nat)
  | GeometryDecrypted (id : Nat)
deriving DecidableEq, Repr

/-- Revert outcomes of the contract.  The first four carry the revert
strings "Already decrypted", "Invalid request", "Category not found" and
the revert of `FHE.checkSignatures`; `DecodeFailure` is the revert of
`abi.decode` on a payload of the wrong shape (or of indexing the decoded
array out of bounds). -/
inductive Err where
  | AlreadyDecrypted
  | InvalidRequest
  | CategoryNotFound
  | ProofVerificationFailed
  | DecodeFailure
deriving DecidableEq, Repr

/-- Pointwise update of a `Nat`-keyed Solidity mapping. -/
def setNat {α : Type} (f : Nat → α) (k : Nat) (v : α) : Nat → α :=
  fun x => if x = k then v else f x

/-- Pointwise update of a `string`-keyed Solidity mapping. -/
def setStr {α : Type} (f : String → α) (k : String) (v : α) : String → α :=
  fun x => if x = k then v else f x

/-- The contract storage: `geometryCount`, the two per-record mappings,
the per-category encrypted counters, the enumerable category list, and
the request-correlation mapping `requestToGeometryId`. -/
structure State where
  geometryCount : Nat
  encryptedGeometries : Nat → EncryptedGeometry
  decryptedGeometries : Nat → DecryptedGeometry
  encryptedIntersectionCount : String → Euint32
  intersectionCategories : List String
  requestToGeometryId : Nat → Nat

/-- Deployment state: every mapping holds Solidity zero values. -/
def initState : State where
  geometryCount := 0
  encryptedGeometries := fun _ => ⟨0, none, none, 0⟩
  decryptedGeometries := fun _ => ⟨"", "", false⟩
  encryptedIntersectionCount := fun _ => none
  intersectionCategories := []
  requestToGeometryId := fun _ => 0

/-- modifier onlyParticipant(uint256 geometryId): its body is just `_;`,
so it imposes no restriction on the caller. -/
def onlyParticipant (sender : Nat) (geometryId : Nat) : Bool := true

/-- Output of `submitEncryptedGeometry`: the new storage, the emitted
events, and the function's declared return values — the Solidity
declaration has none, so `ret` is `none`. -/
structure SubmitResult where
  state : State
  events : List Event
  ret : Option Nat

/-- function submitEncryptedGeometry(euint32, euint32) public — lines
38-59 of the source. -/
def submitEncryptedGeometry (sender : Nat) (s : State)
    (encryptedShape2D encryptedShape3D : Euint32) (timestamp : Nat) :
    SubmitResult :=
  let newId := s.geometryCount + 1
  { state :=
      { s with
        geometryCount := s.geometryCount + 1
        encryptedGeometries := setNat s.encryptedGeometries newId
          ⟨newId, encryptedShape2D, encryptedShape3D, timestamp⟩
        decryptedGeometries := setNat s.decryptedGeometries newId
          ⟨"", "", false⟩ }
    events := [Event.GeometrySubmitted newId timestamp]
    ret := none }

/-- function requestGeometryDecryption(uint256) public
onlyParticipant(geometryId) — lines 61-73.  `reqId` is the request id
that `FHE.requestDecryption` returns (chosen by the oracle). -/
def requestGeometryDecryption (sender : Nat) (s : State)
    (geometryId : Nat) (reqId : Nat) : Except Err (State × List Event) :=
  if (s.decryptedGeometries geometryId).isDecrypted then
    .error .AlreadyDecrypted
  else
    .ok ({ s with
            requestToGeometryId := setNat s.requestToGeometryId reqId geometryId },
         [Event.DecryptionRequested geometryId])

/-- function decryptGeometry(uint256, bytes, bytes) public — lines
75-104: look up the correlated record (`Invalid request` when the
mapping holds 0), require the record not yet decrypted, verify the
oracle signatures, decode the cleartexts as `string[]`, write the two
plaintext shapes and the flag, then fold `results[1]` into the category
counters (lazy creation, homomorphic `+1`). -/
def decryptGeometry (validSig : SigCheck) (sender : Nat) (s : State)
    (requestId : Nat) (cleartexts : CleartextBytes) (proof : Nat) :
    Except Err (State × List Event) :=
  let geometryId := s.requestToGeometryId requestId
  if geometryId = 0 then .error .InvalidRequest
  else if (s.decryptedGeometries geometryId).isDecrypted then
    .error .AlreadyDecrypted
  else if validSig requestId cleartexts proof = false then
    .error .ProofVerificationFailed
  else
    match decodeStringList cleartexts with
    | none => .error .DecodeFailure
    | some results =>
      match results[0]?, results[1]? with
      | some r0, some r1 =>
        let s1 := { s with
          decryptedGeometries := setNat s.decryptedGeometries geometryId
            ⟨r0, r1, true⟩ }
        let s2 :=
          if FHE.isInitialized (s1.encryptedIntersectionCount r1) then s1
          else { s1 with
            encryptedIntersectionCount :=
              setStr s1.encryptedIntersectionCount r1 (FHE.asEuint32 0)
            intersectionCategories := s1.intersectionCategories ++ [r1] }
        let s3 := { s2 with
          encryptedIntersectionCount :=
            setStr s2.encryptedIntersectionCount r1
              (FHE.add (s2.encryptedIntersectionCount r1) (FHE.asEuint32 1)) }
        .ok (s3, [Event.GeometryDecrypted geometryId])
      | _, _ => .error .DecodeFailure

/-- function getDecryptedGeometry(uint256) public view — lines
106-113. -/
def getDecryptedGeometry (sender : Nat) (s : State) (geometryId : Nat) :
    String × String × Bool :=
  let geo := s.decryptedGeometries geometryId
  (geo.shape2D, geo.shape3D, geo.isDecrypted)

/-- function getEncryptedIntersectionCount(string) public view — lines
115-117: a bare mapping read, no check of any kind. -/
def getEncryptedIntersectionCount (sender : Nat) (s : State)
    (category : String) : Euint32 :=
  s.encryptedIntersectionCount category

/-- function requestIntersectionCountDecryption(string) public — lines
119-128: requires the counter to be initialized ("Category not found"),
then stores `uint256(keccak256(abi.encodePacked(category)))` in the
shared correlation mapping under the oracle-chosen `reqId`. -/
def requestIntersectionCountDecryption (kc : HashFn) (sender : Nat)
    (s : State) (category : String) (reqId : Nat) : Except Err State :=
  let count := s.encryptedIntersectionCount category
  if FHE.isInitialized count then
    .ok { s with
      requestToGeometryId := setNat s.requestToGeometryId reqId (kc category) }
  else .error .CategoryNotFound

/-- function getCategoryFromHash(uint256) private view — lines 147-154:
linear scan of `intersectionCategories` for a category whose hash
matches; reverts ("Category not found") when none does, modelled by
`none`. -/
def getCategoryFromHash (kc : HashFn) (cats : List String) (hash : Nat) :
    Option String :=
  cats.find? (fun c => kc c == hash)

/-- function decryptIntersectionCount(uint256, bytes, bytes) public —
lines 130-141: resolve the stored category hash back to a category,
verify the oracle signatures, decode the cleartext `uint32` — and then
do nothing with it: the body ends without a single storage write. -/
def decryptIntersectionCount (validSig : SigCheck) (kc : HashFn)
    (sender : Nat) (s : State) (requestId : Nat)
    (cleartexts : CleartextBytes) (proof : Nat) : Except Err State :=
  let categoryHash := s.requestToGeometryId requestId
  match getCategoryFromHash kc s.intersectionCategories categoryHash with
  | none => .error .CategoryNotFound
  | some _category =>
    if validSig requestId cleartexts proof = false then
      .error .ProofVerificationFailed
    else
      match decodeUint32 cleartexts with
      | none => .error .DecodeFailure
      | some _count => .ok s

/-- One transaction against the contract, with every
environment-supplied datum (caller, oracle request id, oracle payload)
explicit. -/
inductive Op where
  | submit (sender : Nat) (a b : Euint32) (timestamp : Nat)
  | requestGeo (sender geometryId reqId : Nat)
  | geoCallback (sender reqId : Nat) (ct : CleartextBytes) (proof : Nat)
  | requestCount (sender : Nat) (category : String) (reqId : Nat)
  | countCallback (sender reqId : Nat) (ct : CleartextBytes) (proof : Nat)
deriving DecidableEq, Repr

/-- Apply one transaction; a reverting transaction leaves the storage
unchanged. -/
def applyOp (vs : SigCheck) (kc : HashFn) (s : State) : Op → State
  | .submit sd a b t => (submitEncryptedGeometry sd s a b t).state
  | .requestGeo sd g r =>
    match requestGeometryDecryption sd s g r with
    | .ok (s', _) => s'
    | .error _ => s
  | .geoCallback sd r ct pf =>
    match decryptGeometry vs sd s r ct pf with
    | .ok (s', _) => s'
    | .error _ => s
  | .requestCount sd c r =>
    match requestIntersectionCountDecryption kc sd s c r with
    | .ok s' => s'
    | .error _ => s
  | .countCallback sd r ct pf =>
    match decryptIntersectionCount vs kc sd s r ct pf with
    | .ok s' => s'
    | .error _ => s

/-- Run a list of transactions from a state. -/
def run (vs : SigCheck) (kc : HashFn) : State → List Op → State
  | s, [] => s
  | s, op :: ops => run vs kc (applyOp vs kc s op) ops

/-- `true` exactly when the transaction is a geometry-decryption
callback that succeeds from state `s` and whose decoded 3D-shape field
(`results[1]`, the category key) equals `c`. -/
def geoSuccessHit (vs : SigCheck) (c : String) (s : State) : Op → Bool
  | .geoCallback sd r ct pf =>
    (match decryptGeometry vs sd s r ct pf with
     | .ok _ => true
     | .error _ => false)
    && ((decodeStringList ct).bind (fun l => l[1]?) == some c)
  | _ => false

/-- Number of successful geometry-decryption callbacks along a run whose
decoded 3D-shape field equals `c`. -/
def geoSuccessCount (vs : SigCheck) (kc : HashFn) (c : String) :
    State → List Op → Nat
  | _, [] => 0
  | s, op :: ops =>
    (if geoSuccessHit vs c s op then 1 else 0) +
      geoSuccessCount vs kc c (applyOp vs kc s op) ops

/-- Boolean success test for an `Except` outcome. -/
def isOkE {ε α : Type} : Except ε α → Bool
  | .ok _ => true
  | .error _ => false

/-- A signature-check environment in which every proof verifies. -/
def vTrue : SigCheck := fun _ _ _ => true

/-- A signature-check environment in which no proof verifies. -/
def vFalse : SigCheck := fun _ _ _ => false

/-- A concrete injective stand-in for
`uint256(keccak256(abi.encodePacked(category)))`, used to evaluate the
model on concrete inputs. -/
def keccakC : HashFn := fun c => c.length + 42

example : (submitEncryptedGeometry 0 initState (some 3) (some 4) 11).state.geometryCount = 1 := by
  decide

example :
    isOkE (requestGeometryDecryption 0 initState 1 5) = true := by
  decide

/-! Concrete states used to evaluate the model: `sW` has one submitted
record and two pending geometry-decryption requests (ids 5 and 6) for
it; `sW1` additionally applied the first callback; `sC` has one
decrypted record in category "X" and a pending category-count request
(id 9) for "X". -/

def sW : State :=
  run vTrue keccakC initState
    [.submit 0 (some 3) (some 4) 11, .requestGeo 0 1 5, .requestGeo 0 1 6]

def sW1 : State :=
  run vTrue keccakC sW [.geoCallback 0 5 (.strList ["a", "b"]) 7]

def sC : State :=
  run vTrue keccakC initState
    [.submit 0 (some 3) (some 4) 11, .requestGeo 0 1 5,
     .geoCallback 0 5 (.strList ["a", "X"]) 7, .requestCount 0 "X" 9]

theorem setNat_same {α : Type} (f : Nat → α) (k : Nat) (v : α) :
    setNat f k v k = v := by
  simp [setNat]

theorem setStr_same {α : Type} (f : String → α) (k : String) (v : α) :
    setStr f k v k = v := by
  simp [setStr]

/-- Inversion of a successful geometry callback: the correlated id was
nonzero, the correlation mapping is untouched, and the correlated
record's `isDecrypted` flag is now set. -/
theorem decryptGeometry_ok_inv {vs : SigCheck} {sd : Nat} {s : State}
    {r : Nat} {ct : CleartextBytes} {pf : Nat} {s' : State}
    {ev : List Event}
    (h : decryptGeometry vs sd s r ct pf = .ok (s', ev)) :
    s.requestToGeometryId r ≠ 0 ∧
    s'.requestToGeometryId = s.requestToGeometryId ∧
    (s'.decryptedGeometries (s.requestToGeometryId r)).isDecrypted = true := by
  simp only [decryptGeometry] at h
  split at h
  · exact absurd h (by simp)
  case isFalse h0 =>
    split at h
    · exact absurd h (by simp)
    split at h
    · exact absurd h (by simp)
    split at h
    · exact absurd h (by simp)
    case h_2 results hdec =>
      split at h
      case h_1 r0 r1 h0q h1q =>
        rw [Except.ok.injEq, Prod.mk.injEq] at h
        obtain ⟨hs, hev⟩ := h
        subst hs
        refine ⟨h0, ?_, ?_⟩
        · split <;> rfl
        · split <;> simp [setNat_same]
      · exact absurd h (by simp)

/-- If the oracle signature check fails, `decryptGeometry` reverts
(with one of the three guard errors, whichever fires first). -/
theorem decryptGeometry_error_of_invalid_sig (vs : SigCheck) (sd : Nat)
    (s : State) (r : Nat) (ct : CleartextBytes) (pf : Nat)
    (hv : vs r ct pf = false) :
    ∃ e, decryptGeometry vs sd s r ct pf = Except.error e := by
  by_cases h0 : s.requestToGeometryId r = 0
  · exact ⟨Err.InvalidRequest, by simp [decryptGeometry, h0]⟩
  by_cases hd : (s.decryptedGeometries (s.requestToGeometryId r)).isDecrypted = true
  · exact ⟨Err.AlreadyDecrypted, by simp [decryptGeometry, h0, hd]⟩
  · exact ⟨Err.ProofVerificationFailed, by simp [decryptGeometry, h0, hd, hv]⟩

/-- Inversion of a successful `requestGeometryDecryption`: the record
was not decrypted, and only the correlation mapping changed. -/
theorem requestGeometryDecryption_ok_inv {sd : Nat} {s : State} {g r : Nat}
    {s' : State} {ev : List Event}
    (h : requestGeometryDecryption sd s g r = .ok (s', ev)) :
    s' = { s with requestToGeometryId := setNat s.requestToGeometryId r g } ∧
    (s.decryptedGeometries g).isDecrypted = false := by
  simp only [requestGeometryDecryption] at h
  split at h
  · simp at h
  case isFalse hd =>
    rw [Except.ok.injEq, Prod.mk.injEq] at h
    exact ⟨h.1.symm, by simpa using hd⟩

/-- Inversion of a successful `requestIntersectionCountDecryption`: only
the correlation mapping changed (it now stores the category hash). -/
theorem requestIntersectionCountDecryption_ok_inv {kc : HashFn} {sd : Nat}
    {s : State} {c : String} {r : Nat} {s' : State}
    (h : requestIntersectionCountDecryption kc sd s c r = .ok s') :
    s' = { s with requestToGeometryId := setNat s.requestToGeometryId r (kc c) } := by
  simp only [requestIntersectionCountDecryption] at h
  split at h
  · exact (Except.ok.inj h).symm
  · simp at h

/-- A successful `decryptIntersectionCount` returns its input state. -/
theorem decryptIntersectionCount_ok_eq {vs : SigCheck} {kc : HashFn}
    {sd : Nat} {s : State} {r : Nat} {ct : CleartextBytes} {pf : Nat}
    {s' : State}
    (h : decryptIntersectionCount vs kc sd s r ct pf = .ok s') : s' = s := by
  simp only [decryptIntersectionCount] at h
  split at h
  · simp at h
  · split at h
    · simp at h
    · split at h
      · simp at h
      · exact (Except.ok.inj h).symm

/-- Inversion of a successful geometry callback, record-store view: the
correlated record's decryption state was overwritten with the decoded
strings and a set flag; `geometryCount` is untouched. -/
theorem decryptGeometry_ok_dec {vs : SigCheck} {sd : Nat} {s : State}
    {r : Nat} {ct : CleartextBytes} {pf : Nat} {s' : State}
    {ev : List Event}
    (h : decryptGeometry vs sd s r ct pf = .ok (s', ev)) :
    ∃ r0 r1, s'.decryptedGeometries =
      setNat s.decryptedGeometries (s.requestToGeometryId r) ⟨r0, r1, true⟩ ∧
      s'.geometryCount = s.geometryCount := by
  simp only [decryptGeometry] at h
  split at h
  · simp at h
  split at h
  · simp at h
  split at h
  · simp at h
  split at h
  · simp at h
  case h_2 results hdec =>
    split at h
    case h_1 r0 r1 h0q h1q =>
      rw [Except.ok.injEq, Prod.mk.injEq] at h
      obtain ⟨hs, hev⟩ := h
      subst hs
      exact ⟨r0, r1, by split <;> rfl, by split <;> rfl⟩
    · simp at h

/-- Inversion of a successful geometry callback, aggregator view: for
the decoded category the counter is bumped by an encrypted one (created
lazily and registered when absent); every other category's counter and
registration count are untouched. -/
theorem decryptGeometry_ok_cat_effect {vs : SigCheck} {sd : Nat}
    {s : State} {r : Nat} {ct : CleartextBytes} {pf : Nat} {s' : State}
    {ev : List Event} (c : String)
    (h : decryptGeometry vs sd s r ct pf = .ok (s', ev)) :
    ((decodeStringList ct).bind (fun l => l[1]?) = some c →
      s'.encryptedIntersectionCount c =
        FHE.add (s.encryptedIntersectionCount c) (FHE.asEuint32 1) ∧
      s'.intersectionCategories.count c =
        (if (s.encryptedIntersectionCount c).isSome then
          s.intersectionCategories.count c
         else s.intersectionCategories.count c + 1)) ∧
    ((decodeStringList ct).bind (fun l => l[1]?) ≠ some c →
      s'.encryptedIntersectionCount c = s.encryptedIntersectionCount c ∧
      s'.intersectionCategories.count c = s.intersectionCategories.count c) := by
  simp only [decryptGeometry] at h
  split at h
  · simp at h
  split at h
  · simp at h
  split at h
  · simp at h
  split at h
  · simp at h
  case h_2 results hdec =>
    split at h
    case h_1 r0 r1 h0q h1q =>
      rw [Except.ok.injEq, Prod.mk.injEq] at h
      obtain ⟨hs, hev⟩ := h
      subst hs
      rw [hdec]
      constructor
      · intro hc
        simp only [Option.some_bind, h1q, Option.some.injEq] at hc
        subst hc
        constructor
        · split
          case isTrue hinit =>
            simp [setStr_same, FHE.add, FHE.asEuint32]
          case isFalse hinit =>
            simp only [FHE.isInitialized] at hinit
            have hnone : s.encryptedIntersectionCount r1 = none := by
              cases hcase : s.encryptedIntersectionCount r1 with
              | none => rfl
              | some v => rw [hcase] at hinit; simp at hinit
            simp [setStr_same, FHE.add, FHE.asEuint32, hnone]
        · split
          case isTrue hinit =>
            simp only [FHE.isInitialized] at hinit
            simp [hinit]
          case isFalse hinit =>
            simp only [FHE.isInitialized] at hinit
            have hnone : s.encryptedIntersectionCount r1 = none := by
              cases hcase : s.encryptedIntersectionCount r1 with
              | none => rfl
              | some v => rw [hcase] at hinit; simp at hinit
            simp [hnone, List.count_append]
      · intro hc
        have hne : r1 ≠ c := by
          intro he
          exact hc (by simp [h1q, he])
        constructor
        · split <;> simp [setStr, hne, Ne.symm hne]
        · split
          · rfl
          · rw [List.count_append]
            have h1 : List.count c [r1] = 0 := by
              rw [List.count_eq_zero]
              simp [Ne.symm hne]
            omega
    · simp at h

/-- C9: a category-count decryption callback (`decryptIntersectionCount`)
that succeeds changes no state at all: the state it returns is exactly
the state it was given, so every record, every category counter, the
category registry and the correlation table are untouched and the
decoded count is not persisted anywhere. -/
theorem c9_count_callback_changes_no_state (vs : SigCheck) (kc : HashFn)
    (sd : Nat) (s : State) (r : Nat) (ct : CleartextBytes) (pf : Nat)
    (s' : State)
    (h : decryptIntersectionCount vs kc sd s r ct pf = .ok s') : s' = s := by
  simp only [decryptIntersectionCount] at h
  split at h
  · simp at h
  · split at h
    · simp at h
    · split at h
      · simp at h
      · exact (Except.ok.inj h).symm

/-- Witness for C9: in the concrete state `sC` the pending request 9 is
a category-count request for "X"; the callback with a valid proof and a
decodable `uint32` payload succeeds and returns `sC` unchanged. -/
theorem c9_count_callback_changes_no_state_witness :
    decryptIntersectionCount vTrue keccakC 0 sC 9 (CleartextBytes.u32 1) 0 =
      Except.ok sC ∧ sC = sC :=
  ⟨rfl, c9_count_callback_changes_no_state vTrue keccakC 0 sC 9
    (CleartextBytes.u32 1) 0 sC rfl⟩

/-- C10: no operation of the contract depends on the caller: the
`onlyParticipant` modifier's body is just `_;` (it always passes), the
two oracle callbacks are callable by anyone and are gated only by the
signature check, and every public function produces the same outcome for
any two senders. -/
theorem c10_caller_irrelevant (vs : SigCheck) (kc : HashFn) (sd1 sd2 : Nat)
    (s : State) (a b : Euint32) (t g r pf : Nat) (c : String)
    (ct : CleartextBytes) :
    onlyParticipant sd1 g = true ∧
    submitEncryptedGeometry sd1 s a b t = submitEncryptedGeometry sd2 s a b t ∧
    requestGeometryDecryption sd1 s g r = requestGeometryDecryption sd2 s g r ∧
    decryptGeometry vs sd1 s r ct pf = decryptGeometry vs sd2 s r ct pf ∧
    getDecryptedGeometry sd1 s g = getDecryptedGeometry sd2 s g ∧
    getEncryptedIntersectionCount sd1 s c = getEncryptedIntersectionCount sd2 s c ∧
    requestIntersectionCountDecryption kc sd1 s c r =
      requestIntersectionCountDecryption kc sd2 s c r ∧
    decryptIntersectionCount vs kc sd1 s r ct pf =
      decryptIntersectionCount vs kc sd2 s r ct pf :=
  ⟨rfl, rfl, rfl, rfl, rfl, rfl, rfl, rfl⟩

/-- C3: the signature check of the geometry callback happens before any
state mutation: whenever the proof fails to verify the whole transaction
reverts and the state is exactly what it was; and if the callback gets
past the request lookup and the idempotency guard, the revert is
precisely `ProofVerificationFailed`. -/
theorem c3_verify_before_mutate (vs : SigCheck) (kc : HashFn) (sd : Nat)
    (s : State) (r : Nat) (ct : CleartextBytes) (pf : Nat)
    (hv : vs r ct pf = false) :
    applyOp vs kc s (.geoCallback sd r ct pf) = s ∧
    (s.requestToGeometryId r ≠ 0 →
      (s.decryptedGeometries (s.requestToGeometryId r)).isDecrypted = false →
      decryptGeometry vs sd s r ct pf = .error .ProofVerificationFailed) := by
  obtain ⟨e, he⟩ := decryptGeometry_error_of_invalid_sig vs sd s r ct pf hv
  refine ⟨by simp [applyOp, he], ?_⟩
  intro h0 hd
  simp [decryptGeometry, h0, hd, hv]

/-- Witness for C3: in `sW` request 5 maps to the pending record 1; with
a signature environment that rejects every proof the callback reverts
with `ProofVerificationFailed` and the state is unchanged. -/
theorem c3_verify_before_mutate_witness :
    vFalse 5 (CleartextBytes.strList ["a", "b"]) 0 = false ∧
    sW.requestToGeometryId 5 ≠ 0 ∧
    (sW.decryptedGeometries (sW.requestToGeometryId 5)).isDecrypted = false ∧
    applyOp vFalse keccakC sW
      (.geoCallback 0 5 (CleartextBytes.strList ["a", "b"]) 0) = sW ∧
    decryptGeometry vFalse 0 sW 5 (CleartextBytes.strList ["a", "b"]) 0 =
      .error .ProofVerificationFailed :=
  ⟨rfl, by decide, by decide,
   (c3_verify_before_mutate vFalse keccakC 0 sW 5
     (CleartextBytes.strList ["a", "b"]) 0 rfl).1,
   (c3_verify_before_mutate vFalse keccakC 0 sW 5
     (CleartextBytes.strList ["a", "b"]) 0 rfl).2 (by decide) (by decide)⟩

/-- C1: once a geometry callback has succeeded for a record, a second
callback through any request id correlated to the same record reverts
with `AlreadyDecrypted` and changes nothing — in particular no category
counter is incremented a second time. -/
theorem c1_second_callback_rejected (vs : SigCheck) (kc : HashFn)
    (sd sd' : Nat) (s s' : State) (ev : List Event) (r1 r2 : Nat)
    (ct1 ct2 : CleartextBytes) (pf1 pf2 : Nat)
    (hsame : s.requestToGeometryId r2 = s.requestToGeometryId r1)
    (h1 : decryptGeometry vs sd s r1 ct1 pf1 = .ok (s', ev)) :
    decryptGeometry vs sd' s' r2 ct2 pf2 = .error .AlreadyDecrypted ∧
    applyOp vs kc s' (.geoCallback sd' r2 ct2 pf2) = s' := by
  obtain ⟨h0, hreq, hdec⟩ := decryptGeometry_ok_inv h1
  have hr2 : s'.requestToGeometryId r2 = s.requestToGeometryId r1 := by
    rw [hreq, hsame]
  have hmain : decryptGeometry vs sd' s' r2 ct2 pf2 = .error .AlreadyDecrypted := by
    simp [decryptGeometry, hr2, h0, hdec]
  exact ⟨hmain, by simp [applyOp, hmain]⟩

/-- Witness for C1: in `sW` requests 5 and 6 both map to record 1; after
the callback for request 5 succeeds (state `sW1`), the callback for
request 6 reverts with `AlreadyDecrypted` and leaves `sW1` unchanged. -/
theorem c1_second_callback_rejected_witness :
    sW.requestToGeometryId 6 = sW.requestToGeometryId 5 ∧
    decryptGeometry vTrue 0 sW 5 (CleartextBytes.strList ["a", "b"]) 7 =
      .ok (sW1, [Event.GeometryDecrypted 1]) ∧
    decryptGeometry vTrue 0 sW1 6 (CleartextBytes.strList ["c", "d"]) 8 =
      .error .AlreadyDecrypted ∧
    applyOp vTrue keccakC sW1
      (.geoCallback 0 6 (CleartextBytes.strList ["c", "d"]) 8) = sW1 := by
  refine ⟨rfl, rfl, ?_⟩
  exact c1_second_callback_rejected vTrue keccakC 0 0 sW sW1
    [Event.GeometryDecrypted 1] 5 6 (CleartextBytes.strList ["a", "b"])
    (CleartextBytes.strList ["c", "d"]) 7 8 rfl rfl

/-- C2 (amended): the geometry callback reverts with `InvalidRequest`
exactly when the correlation mapping holds 0 for the request id (the
Solidity default for an absent entry), in which case nothing changes;
the mapping carries no request-kind tag — a category-count request
stores the category's hash under its request id, so such an entry is not
rejected by this check when the hash is nonzero. -/
theorem c2_invalid_request_iff_zero (vs : SigCheck) (kc : HashFn)
    (sd : Nat) (s : State) (r : Nat) (ct : CleartextBytes) (pf : Nat) :
    (decryptGeometry vs sd s r ct pf = .error .InvalidRequest ↔
      s.requestToGeometryId r = 0) ∧
    (s.requestToGeometryId r = 0 →
      applyOp vs kc s (.geoCallback sd r ct pf) = s) ∧
    (∀ sd' c r' s'', requestIntersectionCountDecryption kc sd' s c r' = .ok s'' →
      s''.requestToGeometryId r' = kc c) := by
  refine ⟨⟨?_, ?_⟩, ?_, ?_⟩
  · intro h
    by_contra h0
    simp only [decryptGeometry] at h
    rw [if_neg h0] at h
    split at h
    · simp at h
    split at h
    · simp at h
    split at h
    · simp at h
    split at h
    · simp at h
    · simp at h
  · intro h0
    simp [decryptGeometry, h0]
  · intro h0
    simp [applyOp, decryptGeometry, h0]
  · intro sd' c r' s'' h
    simp only [requestIntersectionCountDecryption] at h
    split at h
    · rw [Except.ok.injEq] at h
      subst h
      simp [setNat_same]
    · simp at h

/-- Witness for C2 (amended): at deployment every request id maps to 0,
so the geometry callback rejects request 5 with `InvalidRequest` and
changes nothing; and a successful category-count request stores the
category hash in the shared mapping. -/
theorem c2_invalid_request_iff_zero_witness :
    initState.requestToGeometryId 5 = 0 ∧
    decryptGeometry vTrue 0 initState 5 (CleartextBytes.strList ["a", "b"]) 0 =
      .error .InvalidRequest ∧
    applyOp vTrue keccakC initState
      (.geoCallback 0 5 (CleartextBytes.strList ["a", "b"]) 0) = initState ∧
    requestIntersectionCountDecryption keccakC 0 sC "X" 12 =
      .ok { sC with requestToGeometryId := setNat sC.requestToGeometryId 12 (keccakC "X") } ∧
    ({ sC with requestToGeometryId := setNat sC.requestToGeometryId 12 (keccakC "X") } : State).requestToGeometryId 12 = keccakC "X" :=
  ⟨rfl,
   ((c2_invalid_request_iff_zero vTrue keccakC 0 initState 5
     (CleartextBytes.strList ["a", "b"]) 0).1).mpr rfl,
   (c2_invalid_request_iff_zero vTrue keccakC 0 initState 5
     (CleartextBytes.strList ["a", "b"]) 0).2.1 rfl,
   rfl,
   (c2_invalid_request_iff_zero vTrue keccakC 0 sC 5
     (CleartextBytes.strList ["a", "b"]) 0).2.2 0 "X" 12 _ rfl⟩

/-- Counterexample for C2: in `sC` the pending request 9 was registered
by `requestIntersectionCountDecryption` for category "X" (it stores the
nonzero hash 43), yet `decryptGeometry` does not reject it with
`InvalidRequest` — with a verifying proof and a string payload it even
succeeds, so a request of the wrong kind is not rejected. -/
theorem c2_counterexample :
    sC.requestToGeometryId 9 = keccakC "X" ∧
    keccakC "X" ≠ 0 ∧
    isOkE (decryptGeometry vTrue 0 sC 9 (CleartextBytes.strList ["p", "q"]) 0) =
      true := by
  refine ⟨rfl, by decide, by decide⟩

/-- Tracking predicate for the category aggregator: after `k` successful
geometry callbacks folded into category `c`, the counter for `c` holds
`k mod 2^32` and `c` is registered exactly once; before the first, the
counter is the uninitialized handle and `c` is unregistered. -/
def CatOk (c : String) (k : Nat) (s : State) : Prop :=
  if k = 0 then
    s.encryptedIntersectionCount c = none ∧
    s.intersectionCategories.count c = 0
  else
    s.encryptedIntersectionCount c = some (k % 2 ^ 32) ∧
    s.intersectionCategories.count c = 1

theorem catOk_applyOp (vs : SigCheck) (kc : HashFn) (c : String) (k : Nat)
    (s : State) (op : Op) (h : CatOk c k s) :
    CatOk c (k + (if geoSuccessHit vs c s op then 1 else 0))
      (applyOp vs kc s op) := by
  cases op with
  | submit sd a b t =>
    unfold CatOk at h ⊢
    simpa [geoSuccessHit, applyOp, submitEncryptedGeometry] using h
  | requestGeo sd g r =>
    unfold CatOk at h ⊢
    rcases hE : requestGeometryDecryption sd s g r with e | q
    · simpa [geoSuccessHit, applyOp, hE] using h
    · obtain ⟨s', ev⟩ := q
      obtain ⟨hs', hd⟩ := requestGeometryDecryption_ok_inv hE
      subst hs'
      simpa [geoSuccessHit, applyOp, hE] using h
  | requestCount sd c' r =>
    unfold CatOk at h ⊢
    rcases hE : requestIntersectionCountDecryption kc sd s c' r with e | s'
    · simpa [geoSuccessHit, applyOp, hE] using h
    · have hs' := requestIntersectionCountDecryption_ok_inv hE
      subst hs'
      simpa [geoSuccessHit, applyOp, hE] using h
  | countCallback sd r ct pf =>
    unfold CatOk at h ⊢
    rcases hE : decryptIntersectionCount vs kc sd s r ct pf with e | s'
    · simpa [geoSuccessHit, applyOp, hE] using h
    · have hs' := decryptIntersectionCount_ok_eq hE
      subst hs'
      simpa [geoSuccessHit, applyOp, hE] using h
  | geoCallback sd r ct pf =>
    rcases hE : decryptGeometry vs sd s r ct pf with e | q
    · unfold CatOk at h ⊢
      simpa [geoSuccessHit, applyOp, hE] using h
    · obtain ⟨s', ev⟩ := q
      have happ : applyOp vs kc s (.geoCallback sd r ct pf) = s' := by
        simp [applyOp, hE]
      have heff := decryptGeometry_ok_cat_effect c hE
      by_cases hc : (decodeStringList ct).bind (fun l => l[1]?) = some c
      · have hit : geoSuccessHit vs c s (.geoCallback sd r ct pf) = true := by
          simp [geoSuccessHit, hE, hc]
        obtain ⟨h1, h2⟩ := heff.1 hc
        rw [happ]
        simp only [hit, if_true]
        unfold CatOk at h ⊢
        by_cases hk : k = 0
        · subst hk
          rw [if_pos rfl] at h
          obtain ⟨hs1, hs2⟩ := h
          rw [if_neg (by omega)]
          constructor
          · rw [h1, hs1]
            simp only [FHE.add, FHE.asEuint32, Option.getD_none,
              Option.getD_some, Option.some.injEq]
            omega
          · rw [h2, hs1]
            simp [hs2]
        · rw [if_neg hk] at h
          obtain ⟨hs1, hs2⟩ := h
          rw [if_neg (by omega)]
          constructor
          · rw [h1, hs1]
            simp only [FHE.add, FHE.asEuint32, Option.getD_none,
              Option.getD_some, Option.some.injEq]
            omega
          · rw [h2, hs1]
            simp [hs2]
      · have hit : geoSuccessHit vs c s (.geoCallback sd r ct pf) = false := by
          simp [geoSuccessHit, hE, hc]
        obtain ⟨h1, h2⟩ := heff.2 hc
        rw [happ]
        simp only [hit, if_false, Nat.add_zero]
        unfold CatOk at h ⊢
        rw [h1, h2]
        exact h

theorem catOk_run (vs : SigCheck) (kc : HashFn) (c : String) (k : Nat)
    (s : State) (ops : List Op) (h : CatOk c k s) :
    CatOk c (k + geoSuccessCount vs kc c s ops) (run vs kc s ops) := by
  induction ops generalizing s k with
  | nil => simpa [run, geoSuccessCount] using h
  | cons op ops ih =>
    have h2 := ih (k + (if geoSuccessHit vs c s op then 1 else 0))
      (applyOp vs kc s op) (catOk_applyOp vs kc c k s op h)
    simp only [run, geoSuccessCount]
    rw [← Nat.add_assoc]
    exact h2

/-- C4: starting from deployment, a category counter is created at most
once — after any run in which `n ≥ 1` successful geometry callbacks
decoded their 3D-shape field to `c`, the category `c` appears exactly
once in the enumerable registry and its encrypted counter holds exactly
`n` (for `n` below the `uint32` modulus). -/
theorem c4_category_counter (vs : SigCheck) (kc : HashFn) (c : String)
    (ops : List Op) (n : Nat)
    (hn : n = geoSuccessCount vs kc c initState ops)
    (h0 : 0 < n) (hlt : n < 2 ^ 32) :
    (run vs kc initState ops).encryptedIntersectionCount c = some n ∧
    (run vs kc initState ops).intersectionCategories.count c = 1 := by
  have hinit : CatOk c 0 initState := by
    unfold CatOk initState
    simp
  have h := catOk_run vs kc c 0 initState ops hinit
  rw [← hn, Nat.zero_add] at h
  unfold CatOk at h
  rw [if_neg (by omega)] at h
  rw [Nat.mod_eq_of_lt hlt] at h
  exact h

/-- Concrete run for the C4 witness: two records are submitted,
requested and decrypted, both decoding their 3D-shape field to "X". -/
def opsW : List Op :=
  [.submit 0 (some 3) (some 4) 11, .requestGeo 0 1 5,
   .geoCallback 0 5 (.strList ["a", "X"]) 7,
   .submit 0 (some 5) (some 6) 12, .requestGeo 0 2 6,
   .geoCallback 0 6 (.strList ["b", "X"]) 8]

/-- Witness for C4: after the concrete run `opsW` with two successful
callbacks into "X", the counter for "X" holds 2 and "X" is registered
once. -/
theorem c4_category_counter_witness :
    (2 : Nat) = geoSuccessCount vTrue keccakC "X" initState opsW ∧
    0 < 2 ∧ 2 < 2 ^ 32 ∧
    ((run vTrue keccakC initState opsW).encryptedIntersectionCount "X" =
      some 2 ∧
     (run vTrue keccakC initState opsW).intersectionCategories.count "X" = 1) :=
  ⟨by decide, by decide, by decide,
   c4_category_counter vTrue keccakC "X" opsW 2 (by decide) (by decide)
     (by decide)⟩

/-- C7 (amended): `getEncryptedIntersectionCount` never fails — for a
category into which no record has ever decrypted it returns the
uninitialized (zero) handle; the `CategoryNotFound` revert lives in
`requestIntersectionCountDecryption`, which does reject such a
category. -/
theorem c7_unregistered_category (vs : SigCheck) (kc : HashFn) (c : String)
    (ops : List Op) (sd r : Nat)
    (h : geoSuccessCount vs kc c initState ops = 0) :
    getEncryptedIntersectionCount sd (run vs kc initState ops) c = none ∧
    requestIntersectionCountDecryption kc sd (run vs kc initState ops) c r =
      .error .CategoryNotFound := by
  have hinit : CatOk c 0 initState := by
    unfold CatOk initState
    simp
  have hrun := catOk_run vs kc c 0 initState ops hinit
  rw [h, Nat.add_zero] at hrun
  unfold CatOk at hrun
  rw [if_pos rfl] at hrun
  obtain ⟨hc, hcat⟩ := hrun
  constructor
  · simpa [getEncryptedIntersectionCount] using hc
  · simp [requestIntersectionCountDecryption, FHE.isInitialized, hc]

/-- Witness for C7 (amended): at deployment no record has decrypted into
"Y": the getter returns the zero handle and the count-decryption request
reverts with `CategoryNotFound`. -/
theorem c7_unregistered_category_witness :
    geoSuccessCount vTrue keccakC "Y" initState [] = 0 ∧
    (getEncryptedIntersectionCount 0 (run vTrue keccakC initState []) "Y" =
      none ∧
     requestIntersectionCountDecryption keccakC 0
       (run vTrue keccakC initState []) "Y" 3 = .error .CategoryNotFound) :=
  ⟨rfl, c7_unregistered_category vTrue keccakC "Y" [] 0 3 rfl⟩

/-- Counterexample for C7: the category "X" was never registered in
`initState` (the registry is empty), yet `getEncryptedIntersectionCount`
does not fail with `CategoryNotFound` — it is an unconditional mapping
read that returns the uninitialized zero handle. -/
theorem c7_counterexample :
    initState.intersectionCategories.count "X" = 0 ∧
    getEncryptedIntersectionCount 0 initState "X" = (none : Euint32) :=
  ⟨rfl, rfl⟩

/-- C5 (amended): `requestGeometryDecryption(id)` reverts with
`AlreadyDecrypted` exactly when the decryption state at `id` has its
flag set; there is no record-existence check, so an id with no record is
accepted, and a repeated request before the callback lands is accepted
as well. -/
theorem c5_request_guard (sd : Nat) (s : State) (g r : Nat) :
    (requestGeometryDecryption sd s g r = .error .AlreadyDecrypted ↔
      (s.decryptedGeometries g).isDecrypted = true) ∧
    (∀ sd' r' s' ev, requestGeometryDecryption sd s g r = .ok (s', ev) →
      isOkE (requestGeometryDecryption sd' s' g r') = true) := by
  constructor
  · constructor
    · intro h
      by_cases hd : (s.decryptedGeometries g).isDecrypted = true
      · exact hd
      · simp [requestGeometryDecryption, hd] at h
    · intro hd
      simp [requestGeometryDecryption, hd]
  · intro sd' r' s' ev h
    obtain ⟨hs', hd⟩ := requestGeometryDecryption_ok_inv h
    subst hs'
    simp [requestGeometryDecryption, isOkE, hd]

/-- The state after a lone `requestGeometryDecryption(1)` with oracle
request id 5 from deployment. -/
def sR : State := applyOp vTrue keccakC initState (.requestGeo 0 1 5)

/-- Witness for C5 (amended): in `sW1` record 1 is decrypted and the
request reverts with `AlreadyDecrypted`; from deployment the first
request for record 1 succeeds and an immediate repeat (before any
callback) is accepted too. -/
theorem c5_request_guard_witness :
    (sW1.decryptedGeometries 1).isDecrypted = true ∧
    requestGeometryDecryption 0 sW1 1 11 = .error .AlreadyDecrypted ∧
    requestGeometryDecryption 0 initState 1 5 =
      .ok (sR, [Event.DecryptionRequested 1]) ∧
    isOkE (requestGeometryDecryption 0 sR 1 6) = true :=
  ⟨by decide, (c5_request_guard 0 sW1 1 11).1.mpr (by decide), rfl,
   (c5_request_guard 0 initState 1 5).2 0 6 sR
     [Event.DecryptionRequested 1] rfl⟩

/-- Counterexample for C5: no record exists at deployment
(`geometryCount = 0`), yet `requestGeometryDecryption(1)` is accepted
instead of failing — the function never checks that the record
exists. -/
theorem c5_counterexample :
    initState.geometryCount = 0 ∧
    isOkE (requestGeometryDecryption 0 initState 1 5) = true := by
  exact ⟨rfl, by decide⟩

/-- C6 (amended): every `submitEncryptedGeometry` assigns the next id
`geometryCount + 1` (positive and strictly greater than every previously
assigned id, hence never zero and never reused), stores the encrypted
record and the empty decryption state at that id in the same step,
leaves every other id untouched, and emits `GeometrySubmitted` with the
new id; the function declares no return values, so the id reaches the
caller only through the event and the public counter. -/
theorem c6_submit_assigns_next_id (sd : Nat) (s : State) (a b : Euint32)
    (t : Nat) :
    (submitEncryptedGeometry sd s a b t).state.geometryCount =
      s.geometryCount + 1 ∧
    0 < (submitEncryptedGeometry sd s a b t).state.geometryCount ∧
    s.geometryCount < (submitEncryptedGeometry sd s a b t).state.geometryCount ∧
    (submitEncryptedGeometry sd s a b t).state.encryptedGeometries
      (s.geometryCount + 1) = ⟨s.geometryCount + 1, a, b, t⟩ ∧
    (submitEncryptedGeometry sd s a b t).state.decryptedGeometries
      (s.geometryCount + 1) = ⟨"", "", false⟩ ∧
    (submitEncryptedGeometry sd s a b t).events =
      [Event.GeometrySubmitted (s.geometryCount + 1) t] ∧
    (submitEncryptedGeometry sd s a b t).ret = none ∧
    (∀ id, (submitEncryptedGeometry sd s a b t).state.encryptedGeometries id =
      if id = s.geometryCount + 1 then ⟨s.geometryCount + 1, a, b, t⟩
      else s.encryptedGeometries id) ∧
    (∀ id, (submitEncryptedGeometry sd s a b t).state.decryptedGeometries id =
      if id = s.geometryCount + 1 then ⟨"", "", false⟩
      else s.decryptedGeometries id) := by
  refine ⟨rfl, Nat.succ_pos _, Nat.lt_succ_self _, ?_, ?_, rfl, rfl, ?_, ?_⟩
  · simp [submitEncryptedGeometry, setNat]
  · simp [submitEncryptedGeometry, setNat]
  · intro id
    simp [submitEncryptedGeometry, setNat]
  · intro id
    simp [submitEncryptedGeometry, setNat]

/-- Counterexample for C6: the first submission assigns id 1, but the
function's declared return values are empty — it does not return the new
id to the caller. -/
theorem c6_counterexample :
    (submitEncryptedGeometry 0 initState (some 3) (some 4) 11).state.geometryCount = 1 ∧
    (submitEncryptedGeometry 0 initState (some 3) (some 4) 11).ret ≠
      some ((submitEncryptedGeometry 0 initState (some 3) (some 4) 11).state.geometryCount) :=
  ⟨rfl, by decide⟩

/-- Record-store invariant: a record whose flag is unset has empty
plaintext fields. -/
def EmptyOk (s : State) : Prop :=
  ∀ id, (s.decryptedGeometries id).isDecrypted = false →
    (s.decryptedGeometries id).shape2D = "" ∧
    (s.decryptedGeometries id).shape3D = ""

theorem emptyOk_applyOp (vs : SigCheck) (kc : HashFn) (s : State) (op : Op)
    (h : EmptyOk s) : EmptyOk (applyOp vs kc s op) := by
  cases op with
  | submit sd a b t =>
    intro id
    simp only [applyOp, submitEncryptedGeometry]
    by_cases hid : id = s.geometryCount + 1
    · subst hid
      simp [setNat]
    · simp only [setNat, if_neg hid]
      exact h id
  | requestGeo sd g r =>
    rcases hE : requestGeometryDecryption sd s g r with e | q
    · simpa [applyOp, hE] using h
    · obtain ⟨s', ev⟩ := q
      obtain ⟨hs', hd⟩ := requestGeometryDecryption_ok_inv hE
      subst hs'
      simpa [applyOp, hE] using h
  | geoCallback sd r ct pf =>
    rcases hE : decryptGeometry vs sd s r ct pf with e | q
    · simpa [applyOp, hE] using h
    · obtain ⟨s', ev⟩ := q
      obtain ⟨r0, r1, hdec, hcnt⟩ := decryptGeometry_ok_dec hE
      intro id
      simp only [applyOp, hE]
      rw [hdec]
      by_cases hid : id = s.requestToGeometryId r
      · subst hid
        simp [setNat]
      · simp only [setNat, if_neg hid]
        exact h id
  | requestCount sd c' r =>
    rcases hE : requestIntersectionCountDecryption kc sd s c' r with e | s'
    · simpa [applyOp, hE] using h
    · have hs' := requestIntersectionCountDecryption_ok_inv hE
      subst hs'
      simpa [applyOp, hE] using h
  | countCallback sd r ct pf =>
    rcases hE : decryptIntersectionCount vs kc sd s r ct pf with e | s'
    · simpa [applyOp, hE] using h
    · have hs' := decryptIntersectionCount_ok_eq hE
      subst hs'
      simpa [applyOp, hE] using h

theorem emptyOk_run (vs : SigCheck) (kc : HashFn) (s : State)
    (ops : List Op) (h : EmptyOk s) : EmptyOk (run vs kc s ops) := by
  induction ops generalizing s with
  | nil => simpa [run] using h
  | cons op ops ih => exact ih _ (emptyOk_applyOp vs kc s op h)

/-- C8 (amended): in every state reachable from deployment, a record
with `isDecrypted = false` has empty plaintext fields (the flag is set
in the same write as the decoded fields, which are empty only when the
oracle's cleartext strings are empty); and no operation clears the flag
of any id that has already been assigned (`id ≤ geometryCount`) —
`submitEncryptedGeometry` reinitializes only the fresh id
`geometryCount + 1`, which a rogue callback for a never-assigned id can
have marked decrypted because `requestGeometryDecryption` lacks an
existence check. -/
theorem c8_flag_field_agreement (vs : SigCheck) (kc : HashFn) :
    (∀ ops id,
      ((run vs kc initState ops).decryptedGeometries id).isDecrypted = false →
      ((run vs kc initState ops).decryptedGeometries id).shape2D = "" ∧
      ((run vs kc initState ops).decryptedGeometries id).shape3D = "") ∧
    (∀ s op id, id ≤ s.geometryCount →
      (s.decryptedGeometries id).isDecrypted = true →
      ((applyOp vs kc s op).decryptedGeometries id).isDecrypted = true) := by
  constructor
  · intro ops
    refine emptyOk_run vs kc initState ops ?_
    intro id h
    exact ⟨rfl, rfl⟩
  · intro s op id hle hdec
    cases op with
    | submit sd a b t =>
      simp only [applyOp, submitEncryptedGeometry]
      have hne : id ≠ s.geometryCount + 1 := by omega
      simpa [setNat, hne] using hdec
    | requestGeo sd g r =>
      rcases hE : requestGeometryDecryption sd s g r with e | q
      · simpa [applyOp, hE] using hdec
      · obtain ⟨s', ev⟩ := q
        obtain ⟨hs', hd⟩ := requestGeometryDecryption_ok_inv hE
        subst hs'
        simpa [applyOp, hE] using hdec
    | geoCallback sd r ct pf =>
      rcases hE : decryptGeometry vs sd s r ct pf with e | q
      · simpa [applyOp, hE] using hdec
      · obtain ⟨s', ev⟩ := q
        obtain ⟨r0, r1, hdecG, hcnt⟩ := decryptGeometry_ok_dec hE
        simp only [applyOp, hE]
        rw [hdecG]
        by_cases hid : id = s.requestToGeometryId r
        · subst hid
          simp [setNat]
        · simpa [setNat, hid] using hdec
    | requestCount sd c' r =>
      rcases hE : requestIntersectionCountDecryption kc sd s c' r with e | s'
      · simpa [applyOp, hE] using hdec
      · have hs' := requestIntersectionCountDecryption_ok_inv hE
        subst hs'
        simpa [applyOp, hE] using hdec
    | countCallback sd r ct pf =>
      rcases hE : decryptIntersectionCount vs kc sd s r ct pf with e | s'
      · simpa [applyOp, hE] using hdec
      · have hs' := decryptIntersectionCount_ok_eq hE
        subst hs'
        simpa [applyOp, hE] using hdec

/-- Reachable state in which a record is decrypted with empty plaintext
fields: the oracle's cleartexts decoded to two empty strings. -/
def s8a : State :=
  run vTrue keccakC initState
    [.submit 0 (some 3) (some 4) 0, .requestGeo 0 1 5,
     .geoCallback 0 5 (.strList ["", ""]) 0]

/-- Reachable state in which the never-assigned id 1 is marked
decrypted: `requestGeometryDecryption(1)` was accepted although no
record exists, and the callback then wrote id 1. -/
def s8b : State :=
  run vTrue keccakC initState
    [.requestGeo 0 1 5, .geoCallback 0 5 (.strList ["a", "b"]) 0]

/-- Counterexample for C8: in the reachable state `s8a` record 1 has
`isDecrypted = true` with an empty plaintext 2D-shape field; and in the
reachable state `s8b` the id 1 is marked decrypted while a subsequent
`submitEncryptedGeometry` assigns that same id and resets the flag to
`false` — a true-to-false transition. -/
theorem c8_counterexample :
    ((s8a.decryptedGeometries 1).isDecrypted = true ∧
     (s8a.decryptedGeometries 1).shape2D = "") ∧
    ((s8b.decryptedGeometries 1).isDecrypted = true ∧
     ((applyOp vTrue keccakC s8b
        (.submit 0 none none 0)).decryptedGeometries 1).isDecrypted = false) := by
  decide

/-- Witness for C8 (amended): after one submission record 1 is
undecrypted and its fields are empty; and in `sW1` (where record 1 is
decrypted and `geometryCount = 1`) a further submission does not clear
record 1's flag. -/
theorem c8_flag_field_agreement_witness :
    (((run vTrue keccakC initState
        [.submit 0 (some 3) (some 4) 0]).decryptedGeometries 1).isDecrypted =
      false ∧
     (((run vTrue keccakC initState
         [.submit 0 (some 3) (some 4) 0]).decryptedGeometries 1).shape2D = "" ∧
      ((run vTrue keccakC initState
         [.submit 0 (some 3) (some 4) 0]).decryptedGeometries 1).shape3D = "")) ∧
    (1 ≤ sW1.geometryCount ∧
     (sW1.decryptedGeometries 1).isDecrypted = true ∧
     ((applyOp vTrue keccakC sW1
        (.submit 0 none none 0)).decryptedGeometries 1).isDecrypted = true) :=
  ⟨⟨by decide,
    (c8_flag_field_agreement vTrue keccakC).1
      [.submit 0 (some 3) (some 4) 0] 1 (by decide)⟩,
   ⟨by decide, by decide,
    (c8_flag_field_agreement vTrue keccakC).2 sW1 (.submit 0 none none 0) 1
      (by decide) (by decide)⟩⟩
